import Mathlib

/-!
Verification of the rippify track downloader (`src/main.rs`).

The development shallowly embeds the program's core logic:
* the track format resolver `get_track_from_id` (BFS over alternatives),
* the reference parser `get_resource_from_line` (two anchored regexes),
* the resource resolution phase (`get_playlist_from_id`, `get_album_from_id`,
  `get_artist_from_id` and the input loop of `main`),
* the per-track download pipeline in the body of `main`'s track loop.

External collaborators (the remote session, the decryptor, the Ogg
comment-header rewriter from the `oggvorbismeta` crate, and the filesystem)
are modelled as explicit oracle parameters, matching the spec's statement
that they are consumed through interfaces and not implemented here.
Spotify ids are modelled as the natural number obtained by base62-decoding
the 22-character id string (the `u128` width of `SpotifyId` is not relevant
to any property proved here); errors are modelled as their message strings.
-/

set_option autoImplicit false
set_option maxRecDepth 8192

namespace Rippify

/-- The audio file formats the program distinguishes
(`librespot_metadata::audio::AudioFileFormat`): the three vorbis encodings it
looks up plus representative other variants of the enum. -/
inductive AudioFileFormat where
  | OGG_VORBIS_96
  | OGG_VORBIS_160
  | OGG_VORBIS_320
  | MP3_256
  | MP3_320
  | AAC_24
  deriving DecidableEq, Repr

/-- A track metadata record (`librespot_metadata::Track`), restricted to the
fields the program reads.  `files` is the format-to-file-id mapping (a
`HashMap` in the source, embedded as an association list with at most one
entry per key); `artists` is the ordered list of artist names. -/
structure TrackRecord where
  id : Nat
  name : String
  albumName : String
  artists : List String
  files : List (AudioFileFormat × String)
  alternatives : List Nat
  deriving DecidableEq, Repr

/-- The lookup `track.files.get_key_value(fmt)` for the association-list embedding of the
`HashMap`: the file id stored under `fmt`, if any. -/
def filesGet (files : List (AudioFileFormat × String)) (fmt : AudioFileFormat) :
    Option String :=
  match files with
  | [] => none
  | (k, v) :: rest => if k = fmt then some v else filesGet rest fmt

/-- Lines 379-384 of `main.rs`: look the mapping up at `OGG_VORBIS_320`, else
`OGG_VORBIS_160`, else `OGG_VORBIS_96`, first hit wins. -/
def selectFile (t : TrackRecord) : Option String :=
  ((filesGet t.files .OGG_VORBIS_320).or
    (filesGet t.files .OGG_VORBIS_160)).or
    (filesGet t.files .OGG_VORBIS_96)

/-- The loop of `get_track_from_id` (lines 369-391).  `fetch` is the
`Track::get` oracle; the `List Nat` argument is the `VecDeque` work queue.
The source loop has no termination guard, so the embedding takes a fuel
argument; `none` means the fuel ran out with the queue still non-empty (the
source would keep running), `some r` is the value the source returns. -/
def getTrackLoop (fetch : Nat → Except String TrackRecord) :
    Nat → List Nat → Option (Except String (TrackRecord × String))
  | _, [] => some (.error "cannot find a suitable track")
  | 0, _ :: _ => none
  | fuel + 1, id :: rest =>
    match fetch id with
    | .error e => some (.error e)
    | .ok track =>
      match selectFile track with
      | some fileId => some (.ok (track, fileId))
      | none => getTrackLoop fetch fuel (rest ++ track.alternatives)

/-- Function `get_track_from_id`: the queue is seeded with the single requested id. -/
def getTrackFromId (fetch : Nat → Except String TrackRecord) (fuel : Nat)
    (id : Nat) : Option (Except String (TrackRecord × String)) :=
  getTrackLoop fetch fuel [id]

/-! Concrete sample data used by the witness theorems. -/

/-- A record with both a high- and a low-bitrate vorbis encoding. -/
def sampleHiLo : TrackRecord :=
  { id := 1, name := "hi-lo", albumName := "A", artists := ["X"],
    files := [(.OGG_VORBIS_320, "hi"), (.OGG_VORBIS_96, "lo")],
    alternatives := [] }

/-- A record with only the medium vorbis encoding. -/
def sampleMid : TrackRecord :=
  { id := 2, name := "mid", albumName := "A", artists := ["X"],
    files := [(.MP3_256, "m0"), (.OGG_VORBIS_160, "mid")],
    alternatives := [] }

/-- A record with no acceptable encoding and two alternatives. -/
def sampleAlt : TrackRecord :=
  { id := 3, name := "alt", albumName := "A", artists := ["X"],
    files := [(.MP3_320, "m1")], alternatives := [1, 2] }

/-- A fetch oracle for the witnesses: id 1, 2, 3 resolve to the records
above, id 4 fails to fetch, anything else is unknown. -/
def sampleFetch : Nat → Except String TrackRecord
  | 1 => .ok sampleHiLo
  | 2 => .ok sampleMid
  | 3 => .ok sampleAlt
  | 4 => .error "boom"
  | _ => .error "unknown id"

/-- C1: if the fetched record offers an acceptable vorbis encoding, the
resolver returns the owning record and the file handle of the first format
matched in the strict order `OGG_VORBIS_320`, `OGG_VORBIS_160`,
`OGG_VORBIS_96`; in particular a record exposing both a high- and a
low-bitrate encoding always yields the high-bitrate handle. -/
theorem track_format_preference (fetch : Nat → Except String TrackRecord)
    (fuel id : Nat) (t : TrackRecord) (hfetch : fetch id = .ok t) :
    (∀ f, filesGet t.files .OGG_VORBIS_320 = some f →
      getTrackFromId fetch (fuel + 1) id = some (.ok (t, f))) ∧
    (filesGet t.files .OGG_VORBIS_320 = none →
      ∀ f, filesGet t.files .OGG_VORBIS_160 = some f →
        getTrackFromId fetch (fuel + 1) id = some (.ok (t, f))) ∧
    (filesGet t.files .OGG_VORBIS_320 = none →
      filesGet t.files .OGG_VORBIS_160 = none →
        ∀ f, filesGet t.files .OGG_VORBIS_96 = some f →
          getTrackFromId fetch (fuel + 1) id = some (.ok (t, f))) ∧
    (∀ fHi fLo, filesGet t.files .OGG_VORBIS_320 = some fHi →
      filesGet t.files .OGG_VORBIS_96 = some fLo →
        getTrackFromId fetch (fuel + 1) id = some (.ok (t, fHi))) := by
  refine ⟨fun f h320 => ?_, fun h320 f h160 => ?_, fun h320 h160 f h96 => ?_,
    fun fHi fLo h320 _ => ?_⟩ <;>
    simp [getTrackFromId, getTrackLoop, hfetch, selectFile, h320, Option.or] <;>
    simp_all [Option.or]

/-- C1 witness: `sampleHiLo` has both encodings and resolution at id 1
returns its high-bitrate handle `"hi"`. -/
theorem track_format_preference_witness :
    getTrackFromId sampleFetch 1 1 = some (.ok (sampleHiLo, "hi")) :=
  (track_format_preference sampleFetch 0 1 sampleHiLo rfl).2.2.2 "hi" "lo"
    rfl rfl

/-- C2: the resolver's work queue behaviour.  (a) the queue is seeded with
the single input id; (b) if fetching the front id fails the whole resolution
returns that error immediately; (c) if the front record has no acceptable
encoding its alternative ids are appended to the back of the queue in order
and the search continues; (d) an empty queue yields the
"cannot find a suitable track" error. -/
theorem track_resolver_queue (fetch : Nat → Except String TrackRecord) :
    (∀ fuel id, getTrackFromId fetch fuel id = getTrackLoop fetch fuel [id]) ∧
    (∀ fuel id q e, fetch id = .error e →
      getTrackLoop fetch (fuel + 1) (id :: q) = some (.error e)) ∧
    (∀ fuel id q t, fetch id = .ok t → selectFile t = none →
      getTrackLoop fetch (fuel + 1) (id :: q) =
        getTrackLoop fetch fuel (q ++ t.alternatives)) ∧
    (∀ fuel, getTrackLoop fetch fuel [] =
      some (.error "cannot find a suitable track")) := by
  refine ⟨fun fuel id => rfl, fun fuel id q e he => ?_,
    fun fuel id q t ht hsel => ?_, fun fuel => ?_⟩
  · simp [getTrackLoop, he]
  · simp [getTrackLoop, ht, hsel]
  · cases fuel <;> rfl

/-- C2 witness: at the sample oracle, a failing fetch at the queue front
propagates the error, a record without acceptable encoding enqueues its
alternatives, and the empty queue fails with "cannot find a suitable
track"; consequently resolving id 3 falls through to its first
alternative's high-bitrate file. -/
theorem track_resolver_queue_witness :
    getTrackLoop sampleFetch 2 [4, 9] = some (.error "boom") ∧
    getTrackLoop sampleFetch 2 [3] = getTrackLoop sampleFetch 1 [1, 2] ∧
    getTrackLoop sampleFetch 0 [] =
      some (.error "cannot find a suitable track") ∧
    getTrackFromId sampleFetch 2 3 = some (.ok (sampleHiLo, "hi")) := by
  refine ⟨(track_resolver_queue sampleFetch).2.1 1 4 [9] "boom" rfl,
    (track_resolver_queue sampleFetch).2.2.1 1 3 [] sampleAlt rfl rfl,
    (track_resolver_queue sampleFetch).2.2.2 0, rfl⟩

/-! ## Reference parser (`get_resource_from_line`, lines 452-469)

The two regexes are `^spotify:{name}:([[:alnum:]]{22})$` and
`^(http(s)?://)?open\.spotify\.com/{name}/([[:alnum:]]{22})$`.  Lines are
embedded as `List Char`; `[[:alnum:]]` is the ASCII class, matching
`Char.isAlpha`/`Char.isDigit`. -/

/-- ASCII alphanumeric, the `[[:alnum:]]` class of the `regex` crate. -/
def isAlnumChar (c : Char) : Bool :=
  c.isAlpha || c.isDigit

/-- The digit value used by `SpotifyId::from_base62`: `0`-`9` map to 0-9,
`a`-`z` to 10-35, `A`-`Z` to 36-61. -/
def base62Val (c : Char) : Nat :=
  if c.isDigit then c.toNat - 48
  else if c.isLower then c.toNat - 97 + 10
  else c.toNat - 65 + 36

/-- Decoding `SpotifyId::from_base62` on a valid id string (the `u128` width of the
accumulator is immaterial here and not modelled). -/
def decodeBase62 (s : List Char) : Nat :=
  s.foldl (fun n c => n * 62 + base62Val c) 0

/-- Anchored match of `^{pre}([[:alnum:]]{22})$`: the line must start with
the literal prefix and the rest must be exactly 22 ASCII alphanumerics,
which are returned as the captured id. -/
def matchAnchored (pre line : List Char) : Option (List Char) :=
  if pre.isPrefixOf line then
    let id := line.drop pre.length
    if id.length == 22 && id.all isAlnumChar then some id else none
  else none

/-- The `resource_uri` regex `^spotify:{name}:([[:alnum:]]{22})$`. -/
def resourceUri (name line : List Char) : Option (List Char) :=
  matchAnchored ("spotify:".data ++ name ++ ":".data) line

/-- The optional `(http(s)?://)?` group: strip a leading scheme when
present.  (The rest of the pattern starts with `open.`, so the regex can
consume a leading scheme exactly when one is literally present.) -/
def stripScheme (line : List Char) : List Char :=
  if "https://".data.isPrefixOf line then line.drop 8
  else if "http://".data.isPrefixOf line then line.drop 7
  else line

/-- The `resource_url` regex
`^(http(s)?://)?open\.spotify\.com/{name}/([[:alnum:]]{22})$`. -/
def resourceUrl (name line : List Char) : Option (List Char) :=
  matchAnchored ("open.spotify.com/".data ++ name ++ "/".data)
    (stripScheme line)

/-- Function `get_resource_from_line`: try the URI regex, then the URL regex; on a
match return the decoded id together with the matched id substring. -/
def getResourceFromLine (name line : List Char) :
    Option (Nat × List Char) :=
  match (resourceUri name line).or (resourceUrl name line) with
  | some id => some (decodeBase62 id, id)
  | none => none

/-- The URI surface form exactly as the claim states it:
`scheme:kind:ID`. -/
def claimedUriForm (name line : List Char) : Bool :=
  (matchAnchored ("spotify:".data ++ name ++ ":".data) line).isSome

/-- The URL surface form exactly as the claim states it, with a mandatory
`http://` or `https://` scheme: `http(s)://host/kind/ID`. -/
def claimedUrlForm (name line : List Char) : Bool :=
  (matchAnchored ("http://open.spotify.com/".data ++ name ++ "/".data)
    line).isSome ||
  (matchAnchored ("https://open.spotify.com/".data ++ name ++ "/".data)
    line).isSome

theorem matchAnchored_eq_some {pre line s : List Char} :
    matchAnchored pre line = some s ↔
      line = pre ++ s ∧ s.length = 22 ∧ s.all isAlnumChar = true := by
  unfold matchAnchored
  by_cases hp : pre.isPrefixOf line
  · rw [if_pos hp]
    rcases ( List.isPrefixOf_iff_prefix.1 hp) with ⟨t, ht⟩
    constructor
    · intro h
      by_cases hc :
          ((line.drop pre.length).length == 22 &&
            (line.drop pre.length).all isAlnumChar) = true
      · rw [if_pos hc] at h
        obtain rfl : line.drop pre.length = s := by
          exact Option.some.inj h
        simp only [Bool.and_eq_true, beq_iff_eq] at hc
        exact ⟨by rw [← ht, List.drop_left], hc.1, hc.2⟩
      · rw [if_neg hc] at h
        exact absurd h (by simp)
    · rintro ⟨rfl, hlen, hall⟩
      rw [List.drop_left]
      have : (s.length == 22 && s.all isAlnumChar) = true := by
        simp only [Bool.and_eq_true, beq_iff_eq]
        exact ⟨hlen, hall⟩
      rw [if_pos this]
  · rw [if_neg hp]
    constructor
    · intro h; exact absurd h (by simp)
    · rintro ⟨rfl, hlen, hall⟩
      exact absurd ( List.isPrefixOf_iff_prefix.2 ( List.prefix_append pre s)) hp

theorem isPrefixOf_eq_false_of_head {a b : Char} (hne : a ≠ b) {p l : List Char}
    (hp : p[0]? = some a) (hl : l[0]? = some b) : p.isPrefixOf l = false := by
  apply Bool.eq_false_iff.2
  intro h
  rcases List.isPrefixOf_iff_prefix.1 h with ⟨t, ht⟩
  have h0 : 0 < p.length := by
    cases p with
    | nil => simp at hp
    | cons c cs => simp
  have h1 : (p ++ t)[0]? = p[0]? := List.getElem?_append_left h0
  rw [ht, hl, hp] at h1
  exact hne (Option.some.inj h1.symm)

theorem isPrefixOf_eq_false_of_ne_at {p l : List Char} {i : Nat}
    (hp : i < p.length) (hne : p[i]? ≠ l[i]?) : p.isPrefixOf l = false := by
  apply Bool.eq_false_iff.2
  intro h
  rcases List.isPrefixOf_iff_prefix.1 h with ⟨t, ht⟩
  have h1 : (p ++ t)[i]? = p[i]? := List.getElem?_append_left hp
  rw [ht] at h1
  exact hne h1.symm

/-- A line starting with `o` has no scheme to strip. -/
theorem stripScheme_of_head {l : List Char} (h : l[0]? = some 'o') :
    stripScheme l = l := by
  unfold stripScheme
  rw [isPrefixOf_eq_false_of_head (a := 'h') (b := 'o') (by decide) rfl h,
    isPrefixOf_eq_false_of_head (a := 'h') (b := 'o') (by decide) rfl h]
  simp

theorem stripScheme_http (x : List Char) :
    stripScheme ("http://".data ++ x) = x := by
  unfold stripScheme
  have h1 : ("https://".data).isPrefixOf ("http://".data ++ x) = false := by
    apply isPrefixOf_eq_false_of_ne_at (i := 4) (by decide)
    rw [show ("http://".data ++ x)[4]? = some ':' from rfl]
    decide
  rw [h1]
  have h2 : ("http://".data).isPrefixOf ("http://".data ++ x) = true :=
    List.isPrefixOf_iff_prefix.2 ( List.prefix_append _ _)
  rw [h2]
  simp

theorem stripScheme_https (x : List Char) :
    stripScheme ("https://".data ++ x) = x := by
  unfold stripScheme
  have h1 : ("https://".data).isPrefixOf ("https://".data ++ x) = true :=
    List.isPrefixOf_iff_prefix.2 ( List.prefix_append _ _)
  rw [h1]
  simp

/-- C8 (amended): `get_resource_from_line` accepts exactly the anchored
URI form `spotify:kind:ID` and the URL form with an *optional* `http://` or
`https://` scheme — `[http(s)://]open.spotify.com/kind/ID` — where `ID` is
exactly 22 ASCII alphanumerics; it returns the base62-decoded id together
with the exact matched ID substring, and every other line yields `none`. -/
theorem reference_parser_forms (name l : List Char) (n : Nat) (s : List Char) :
    getResourceFromLine name l = some (n, s) ↔
      s.length = 22 ∧ s.all isAlnumChar = true ∧ n = decodeBase62 s ∧
        (l = "spotify:".data ++ name ++ ":".data ++ s ∨
         l = "open.spotify.com/".data ++ name ++ "/".data ++ s ∨
         l = "http://".data ++
           ("open.spotify.com/".data ++ name ++ "/".data ++ s) ∨
         l = "https://".data ++
           ("open.spotify.com/".data ++ name ++ "/".data ++ s)) := by
  constructor
  · intro h
    unfold getResourceFromLine at h
    cases hor : (resourceUri name l).or (resourceUrl name l) with
    | none => rw [hor] at h; exact absurd h (by simp)
    | some id =>
      rw [hor] at h
      obtain ⟨rfl, rfl⟩ : n = decodeBase62 id ∧ s = id := by
        have h2 := Option.some.inj h
        exact ⟨congrArg Prod.fst h2.symm, congrArg Prod.snd h2.symm⟩
      rcases Option.or_eq_some.1 hor with huri | ⟨huri, hurl⟩
      · rcases matchAnchored_eq_some.1 huri with ⟨hline, hlen, hall⟩
        exact ⟨hlen, hall, rfl, Or.inl (by rw [hline])⟩
      · rcases matchAnchored_eq_some.1 hurl with ⟨hstrip, hlen, hall⟩
        refine ⟨hlen, hall, rfl, ?_⟩
        unfold stripScheme at hstrip
        by_cases h8 : ("https://".data).isPrefixOf l = true
        · rw [if_pos h8] at hstrip
          rcases List.isPrefixOf_iff_prefix.1 h8 with ⟨t, ht⟩
          have hdrop : l.drop 8 = t := by rw [← ht]; exact List.drop_left' rfl
          rw [hdrop] at hstrip
          exact Or.inr (Or.inr (Or.inr (by rw [← ht, hstrip])))
        · rw [if_neg h8] at hstrip
          by_cases h7 : ("http://".data).isPrefixOf l = true
          · rw [if_pos h7] at hstrip
            rcases List.isPrefixOf_iff_prefix.1 h7 with ⟨t, ht⟩
            have hdrop : l.drop 7 = t := by rw [← ht]; exact List.drop_left' rfl
            rw [hdrop] at hstrip
            exact Or.inr (Or.inr (Or.inl (by rw [← ht, hstrip])))
          · rw [if_neg h7] at hstrip
            exact Or.inr (Or.inl (by rw [hstrip]))
  · rintro ⟨hlen, hall, rfl, hform | hform | hform | hform⟩ <;> subst hform
    · have huri : resourceUri name ("spotify:".data ++ name ++ ":".data ++ s) =
          some s := matchAnchored_eq_some.2 ⟨rfl, hlen, hall⟩
      unfold getResourceFromLine
      rw [Option.or_eq_some.2 (Or.inl huri)]
    · have huri : resourceUri name
          ("open.spotify.com/".data ++ name ++ "/".data ++ s) = none := by
        unfold resourceUri matchAnchored
        rw [isPrefixOf_eq_false_of_head (a := 's') (b := 'o') (by decide) rfl
          rfl]
        simp
      have hurl : resourceUrl name
          ("open.spotify.com/".data ++ name ++ "/".data ++ s) = some s := by
        unfold resourceUrl
        rw [stripScheme_of_head rfl]
        exact matchAnchored_eq_some.2 ⟨rfl, hlen, hall⟩
      unfold getResourceFromLine
      rw [Option.or_eq_some.2 (Or.inr ⟨huri, hurl⟩)]
    · have huri : resourceUri name ("http://".data ++
          ("open.spotify.com/".data ++ name ++ "/".data ++ s)) = none := by
        unfold resourceUri matchAnchored
        rw [isPrefixOf_eq_false_of_head (a := 's') (b := 'h') (by decide) rfl
          rfl]
        simp
      have hurl : resourceUrl name ("http://".data ++
          ("open.spotify.com/".data ++ name ++ "/".data ++ s)) = some s := by
        unfold resourceUrl
        rw [stripScheme_http]
        exact matchAnchored_eq_some.2 ⟨rfl, hlen, hall⟩
      unfold getResourceFromLine
      rw [Option.or_eq_some.2 (Or.inr ⟨huri, hurl⟩)]
    · have huri : resourceUri name ("https://".data ++
          ("open.spotify.com/".data ++ name ++ "/".data ++ s)) = none := by
        unfold resourceUri matchAnchored
        rw [isPrefixOf_eq_false_of_head (a := 's') (b := 'h') (by decide) rfl
          rfl]
        simp
      have hurl : resourceUrl name ("https://".data ++
          ("open.spotify.com/".data ++ name ++ "/".data ++ s)) = some s := by
        unfold resourceUrl
        rw [stripScheme_https]
        exact matchAnchored_eq_some.2 ⟨rfl, hlen, hall⟩
      unfold getResourceFromLine
      rw [Option.or_eq_some.2 (Or.inr ⟨huri, hurl⟩)]

/-- C8 counterexample: the line `open.spotify.com/track/<22 alnum chars>`
matches neither of the two surface forms the claim states (the URI form and
the URL form with a mandatory scheme), yet the parser accepts it: the
`(http(s)?://)?` group of the source regex makes the scheme optional. -/
theorem reference_parser_scheme_optional_cex :
    claimedUriForm "track".data
        "open.spotify.com/track/0123456789012345678901".data = false ∧
    claimedUrlForm "track".data
        "open.spotify.com/track/0123456789012345678901".data = false ∧
    (getResourceFromLine "track".data
        "open.spotify.com/track/0123456789012345678901".data).isSome = true :=
  by decide

/-- C8 witness: the parser applied at concrete lines of each surface form
returns the decoded id and the exact matched 22-character substring. -/
theorem reference_parser_forms_witness :
    getResourceFromLine "track".data
        "https://open.spotify.com/track/0000000000000000000001".data =
      some (1, "0000000000000000000001".data) :=
  (reference_parser_forms "track".data
      "https://open.spotify.com/track/0000000000000000000001".data 1
      "0000000000000000000001".data).mpr
    ⟨by decide, by decide, by decide,
      Or.inr (Or.inr (Or.inr (by decide)))⟩


/-! ## Resource resolution phase (`main` lines 57-106, helpers lines
393-450)

The accumulating `HashSet<SpotifyId>` is embedded as a `Finset Nat`; the
metadata provider is an oracle record. -/

/-- Record `librespot_metadata::Artist`, restricted to what the program reads: the
`albums` and `singles` collections, each a list of album-id groupings. -/
structure ArtistRecord where
  albums : List (List Nat)
  singles : List (List Nat)

/-- The metadata-provider collaborator (`Playlist::get`, `Album::get`,
`Artist::get`), as result-valued oracles. -/
structure MetaProvider where
  fetchPlaylist : Nat → Except String (List Nat)
  fetchAlbum : Nat → Except String (List Nat)
  fetchArtist : Nat → Except String ArtistRecord

/-- Function `get_playlist_from_id` (lines 393-408): fetch the playlist, then insert
every listed track id into the accumulating set. -/
def getPlaylistFromId (m : MetaProvider) (id : Nat) (acc : Finset Nat) :
    Except String (Finset Nat) :=
  match m.fetchPlaylist id with
  | .error e => .error e
  | .ok ts => .ok (ts.foldl (fun s t => insert t s) acc)

/-- Function `get_album_from_id` (lines 410-425), same shape as the playlist case. -/
def getAlbumFromId (m : MetaProvider) (id : Nat) (acc : Finset Nat) :
    Except String (Finset Nat) :=
  match m.fetchAlbum id with
  | .error e => .error e
  | .ok ts => .ok (ts.foldl (fun s t => insert t s) acc)

/-- The inner loop of `get_artist_from_id`: expand each album id of one
grouping in order, propagating the first error (`?` in the source). -/
def expandAlbumList (m : MetaProvider) :
    List Nat → Finset Nat → Except String (Finset Nat)
  | [], acc => .ok acc
  | a :: rest, acc =>
    match getAlbumFromId m a acc with
    | .error e => .error e
    | .ok acc2 => expandAlbumList m rest acc2

/-- The outer loop of `get_artist_from_id`: expand the groupings of one
collection in order, propagating the first error. -/
def expandGroups (m : MetaProvider) :
    List (List Nat) → Finset Nat → Except String (Finset Nat)
  | [], acc => .ok acc
  | g :: gs, acc =>
    match expandAlbumList m g acc with
    | .error e => .error e
    | .ok acc2 => expandGroups m gs acc2

/-- Function `get_artist_from_id` (lines 427-450): fetch the artist, expand all
`albums` groupings, then all `singles` groupings. -/
def getArtistFromId (m : MetaProvider) (id : Nat) (acc : Finset Nat) :
    Except String (Finset Nat) :=
  match m.fetchArtist id with
  | .error e => .error e
  | .ok ar =>
    match expandGroups m ar.albums acc with
    | .error e => .error e
    | .ok acc2 => expandGroups m ar.singles acc2

/-- One iteration of the input loop (lines 61-106): classify the line as a
track, playlist, album or artist reference (in that order); direct track
ids are inserted, playlist/album/artist fetch failures are logged and
skipped (the accumulated set is kept as is), and an unrecognized line is
skipped. -/
def resolveLine (m : MetaProvider) (acc : Finset Nat) (l : List Char) :
    Finset Nat :=
  match getResourceFromLine "track".data l with
  | some (id, _) => insert id acc
  | none =>
    match getResourceFromLine "playlist".data l with
    | some (id, _) =>
      match getPlaylistFromId m id acc with
      | .ok acc2 => acc2
      | .error _ => acc
    | none =>
      match getResourceFromLine "album".data l with
      | some (id, _) =>
        match getAlbumFromId m id acc with
        | .ok acc2 => acc2
        | .error _ => acc
      | none =>
        match getResourceFromLine "artist".data l with
        | some (id, _) =>
          match getArtistFromId m id acc with
          | .ok acc2 => acc2
          | .error _ => acc
        | none => acc

/-- The whole input loop: fold `resolveLine` over the input lines. -/
def resolveLines (m : MetaProvider) :
    List (List Char) → Finset Nat → Finset Nat
  | [], acc => acc
  | l :: ls, acc => resolveLines m ls (resolveLine m acc l)

theorem expandAlbumList_append (m : MetaProvider) (xs ys : List Nat)
    (acc : Finset Nat) :
    expandAlbumList m (xs ++ ys) acc =
      match expandAlbumList m xs acc with
      | .error e => .error e
      | .ok acc2 => expandAlbumList m ys acc2 := by
  induction xs generalizing acc with
  | nil => rfl
  | cons a rest ih =>
    simp only [List.cons_append, expandAlbumList]
    cases getAlbumFromId m a acc with
    | error e => rfl
    | ok acc2 => exact ih acc2

theorem expandGroups_eq_flatten (m : MetaProvider) (gs : List (List Nat))
    (acc : Finset Nat) :
    expandGroups m gs acc = expandAlbumList m gs.flatten acc := by
  induction gs generalizing acc with
  | nil => rfl
  | cons g rest ih =>
    simp only [expandGroups, List.flatten_cons, expandAlbumList_append]
    cases expandAlbumList m g acc with
    | error e => rfl
    | ok acc2 => exact ih acc2

theorem expandAlbumList_error_at (m : MetaProvider) (pre : List Nat)
    (b : Nat) (post : List Nat) (e : String)
    (hok : ∀ a ∈ pre, ∃ ts, m.fetchAlbum a = .ok ts)
    (hb : m.fetchAlbum b = .error e) (acc : Finset Nat) :
    expandAlbumList m (pre ++ b :: post) acc = .error e := by
  induction pre generalizing acc with
  | nil => simp [expandAlbumList, getAlbumFromId, hb]
  | cons a rest ih =>
    obtain ⟨ts, hts⟩ := hok a (List.mem_cons_self a rest)
    simp only [List.cons_append, expandAlbumList, getAlbumFromId, hts]
    exact ih (fun x hx => hok x (List.mem_cons_of_mem a hx)) _

/-- C5: the artist-expansion and top-level failure policies.  (a) if the
artist record is fetched and, reading the album ids of all `albums`
groupings followed by all `singles` groupings in order, every album before
some album `b` fetches successfully and `b` fails, the whole artist
resolution propagates `b`'s error (later albums are never reached, for any
oracle behaviour on them); (b), (c) a fetch failure of a top-level playlist
or album reference only skips that reference: the input loop continues with
the remaining lines and the accumulated set unchanged. -/
theorem artist_expansion_policy (m : MetaProvider) :
    (∀ id acc ar pre b post e,
      m.fetchArtist id = .ok ar →
      ar.albums.flatten ++ ar.singles.flatten = pre ++ b :: post →
      (∀ a ∈ pre, ∃ ts, m.fetchAlbum a = .ok ts) →
      m.fetchAlbum b = .error e →
      getArtistFromId m id acc = .error e) ∧
    (∀ l ls acc id s e,
      getResourceFromLine "track".data l = none →
      getResourceFromLine "playlist".data l = some (id, s) →
      m.fetchPlaylist id = .error e →
      resolveLines m (l :: ls) acc = resolveLines m ls acc) ∧
    (∀ l ls acc id s e,
      getResourceFromLine "track".data l = none →
      getResourceFromLine "playlist".data l = none →
      getResourceFromLine "album".data l = some (id, s) →
      m.fetchAlbum id = .error e →
      resolveLines m (l :: ls) acc = resolveLines m ls acc) := by
  refine ⟨fun id acc ar pre b post e hart hsplit hok hb => ?_,
    fun l ls acc id s e h1 h2 hfetch => ?_,
    fun l ls acc id s e h1 h2 h3 hfetch => ?_⟩
  · have key : expandAlbumList m (ar.albums.flatten ++ ar.singles.flatten)
        acc = .error e := by
      rw [hsplit]; exact expandAlbumList_error_at m pre b post e hok hb acc
    rw [expandAlbumList_append] at key
    simp only [getArtistFromId, hart, expandGroups_eq_flatten]
    cases h2 : expandAlbumList m ar.albums.flatten acc with
    | error e2 => rw [h2] at key; exact key
    | ok acc2 => rw [h2] at key; exact key
  · simp only [resolveLines, resolveLine, h1, h2, getPlaylistFromId, hfetch]
  · simp only [resolveLines, resolveLine, h1, h2, h3, getAlbumFromId, hfetch]

/-- A concrete artist: two `albums` groupings (album 21, then album 22) and
one `singles` grouping (album 23). -/
def sampleArtist : ArtistRecord :=
  { albums := [[21], [22]], singles := [[23]] }

/-- A concrete metadata provider: playlist 63 and album 22 fail to fetch,
everything else succeeds. -/
def sampleMeta : MetaProvider where
  fetchPlaylist := fun id =>
    if id = 63 then .error "playlist boom" else .ok [1, 2, 1]
  fetchAlbum := fun id =>
    if id = 21 then .ok [3] else if id = 23 then .ok [4]
    else .error "album boom"
  fetchArtist := fun id =>
    if id = 30 then .ok sampleArtist else .error "artist boom"

/-- C5 witness: album 22 (second `albums` grouping) fails, so resolving
artist 30 propagates `"album boom"` even though the singles album 23 would
succeed; and a failing top-level playlist line is skipped, leaving the
accumulated set `{5}` for the remaining (empty) input. -/
theorem artist_expansion_policy_witness :
    getArtistFromId sampleMeta 30 ∅ = .error "album boom" ∧
    resolveLines sampleMeta ["spotify:playlist:0000000000000000000011".data]
        {5} = resolveLines sampleMeta [] {5} := by
  constructor
  · exact (artist_expansion_policy sampleMeta).1 30 ∅ sampleArtist [21] 22
      [23] "album boom" rfl rfl
      (fun a ha => by
        simp only [List.mem_singleton] at ha
        subst ha
        exact ⟨[3], rfl⟩)
      rfl
  · exact (artist_expansion_policy sampleMeta).2.1
      "spotify:playlist:0000000000000000000011".data [] {5} 63
      "0000000000000000000011".data "playlist boom" (by decide) (by decide)
      rfl

theorem mem_foldl_insert (ts : List Nat) (acc : Finset Nat) (x : Nat) :
    x ∈ ts.foldl (fun s t => insert t s) acc ↔ x ∈ ts ∨ x ∈ acc := by
  induction ts generalizing acc with
  | nil => simp
  | cons t rest ih =>
    simp only [List.foldl_cons, ih, Finset.mem_insert, List.mem_cons]
    tauto

/-- C9: the resolved track-id set is deduplicated.  (a) a track line whose
id is already in the set leaves the set unchanged; (b) processing the same
track line twice is the same as processing it once; (c) a fetched playlist
extends the set to exactly the union of its track list and the previous
set, so duplicated contributions collapse to one entry. -/
theorem track_set_dedup (m : MetaProvider) :
    (∀ acc id s l, getResourceFromLine "track".data l = some (id, s) →
      id ∈ acc → resolveLine m acc l = acc) ∧
    (∀ acc id s l, getResourceFromLine "track".data l = some (id, s) →
      resolveLine m (resolveLine m acc l) l = resolveLine m acc l) ∧
    (∀ acc id ts, m.fetchPlaylist id = .ok ts →
      ∃ acc2, getPlaylistFromId m id acc = .ok acc2 ∧
        ∀ x, x ∈ acc2 ↔ x ∈ ts ∨ x ∈ acc) := by
  refine ⟨fun acc id s l h hmem => ?_, fun acc id s l h => ?_,
    fun acc id ts hfetch => ?_⟩
  · simp only [resolveLine, h]
    exact Finset.insert_eq_self.2 hmem
  · simp only [resolveLine, h]
    exact Finset.insert_idem id acc
  · exact ⟨ts.foldl (fun s t => insert t s) acc,
      by simp [getPlaylistFromId, hfetch],
      fun x => mem_foldl_insert ts acc x⟩

/-- C9 witness: the line `spotify:track:0000000000000000000001` decodes to
id 1; with 1 already present the set `{1}` is unchanged, processing the
line twice from `∅` equals processing it once, and fetching playlist 0
(track list `[1, 2, 1]`) from `{5}` yields a set whose members are exactly
`{1, 2, 5}` — the duplicated 1 collapses. -/
theorem track_set_dedup_witness :
    resolveLine sampleMeta {1} "spotify:track:0000000000000000000001".data =
      {1} ∧
    resolveLine sampleMeta
        (resolveLine sampleMeta ∅ "spotify:track:0000000000000000000001".data)
        "spotify:track:0000000000000000000001".data =
      resolveLine sampleMeta ∅ "spotify:track:0000000000000000000001".data ∧
    ∃ acc2, getPlaylistFromId sampleMeta 0 {5} = .ok acc2 ∧
      ∀ x, x ∈ acc2 ↔ x ∈ [1, 2, 1] ∨ x ∈ ({5} : Finset Nat) := by
  refine ⟨(track_set_dedup sampleMeta).1 {1} 1
      "0000000000000000000001".data _ (by decide) (by decide),
    (track_set_dedup sampleMeta).2.1 ∅ 1
      "0000000000000000000001".data _ (by decide),
    (track_set_dedup sampleMeta).2.2 {5} 0 [1, 2, 1] rfl⟩

/-! ## Per-track download pipeline (`main` lines 125-286)

The per-track effects (key request, stream open, read, decrypt, directory
creation, file creation, write) are oracle results in a `TrackEnv`; the
destination filesystem is the list of file paths that exist, a path being a
`List Char`. -/

/-- Rust `str::replace` (all non-overlapping occurrences, left to right), as a
fuel-indexed structural recursion; the fuel is the input length, which
bounds the number of steps since every step consumes at least one
character. -/
def replaceGo (pat rep : List Char) : Nat → List Char → List Char
  | _, [] => []
  | 0, l => l
  | fuel + 1, c :: rest =>
    if pat.isPrefixOf (c :: rest) ∧ pat ≠ [] then
      rep ++ replaceGo pat rep fuel (rest.drop (pat.length - 1))
    else c :: replaceGo pat rep fuel rest

/-- Rust `l.replace(pat, rep)` from the source, on character lists. -/
def replaceList (pat rep l : List Char) : List Char :=
  replaceGo pat rep l.length l

/-- Lines 154-160: substitute `{author}` (first artist), `{album}`,
`{name}` (path separators replaced by spaces) and `{ext}` (fixed `ogg`)
into the template, in source order.  `none` models the
`artists.first().unwrap()` panic on an empty artist list. -/
def computeOutputPath (template : List Char) (t : TrackRecord) :
    Option (List Char) :=
  t.artists.head?.map fun author =>
    replaceList "{ext}".data "ogg".data
      (replaceList "{name}".data (replaceList "/".data " ".data t.name.data)
        (replaceList "{album}".data t.albumName.data
          (replaceList "{author}".data author.data template)))

/-- The check `track_output_path.rfind('/')` succeeds exactly when the path contains
a separator. -/
def hasSlash (p : List Char) : Bool :=
  p.contains '/'

/-- The per-track outcome.  `fatalExit` is `exit(1)` (bad format string,
directory-creation failure), `panicked` is an `unwrap` panic; both
terminate the whole run. -/
inductive Outcome where
  | written
  | alreadyExists
  | skipped (reason : String)
  | fatalExit (msg : String)
  | panicked (msg : String)
  deriving DecidableEq, Repr

/-- Outcomes that terminate the whole run. -/
def Outcome.isFatal : Outcome → Bool
  | .fatalExit _ => true
  | .panicked _ => true
  | _ => false

/-- The observable side effects a track's processing performs. -/
inductive Action where
  | createDirs
  | requestKey
  | openAudioFile
  | readStream
  | decryptAudio
  | createOutFile
  | writeOutFile
  deriving DecidableEq, Repr

/-- The oracle results of one track's external interactions:
`get_track_from_id`, `audio_key().request`, `AudioFile::open`,
`read_to_end`, `AudioDecrypt::read_to_end`, `create_dir_all`,
`File::create`, `copy`. -/
structure TrackEnv where
  resolved : Except String (TrackRecord × String)
  keyResult : Except String Unit
  openResult : Except String Unit
  readResult : Except String (List Nat)
  decryptResult : Except String (List Nat)
  dirOk : Bool
  createOk : Bool
  writeResult : Except String Unit

/-- An Ogg vorbis comment header (`oggvorbismeta::CommentHeader`): a vendor
string and an ordered multi-tag list. -/
structure CommentHeader where
  vendor : String
  tags : List (String × String)
  deriving DecidableEq, Repr

/-- Constructor `CommentHeader::new()`. -/
def newHeader : CommentHeader :=
  { vendor := "", tags := [] }

/-- Method `set_vendor`. -/
def setVendor (c : CommentHeader) (v : String) : CommentHeader :=
  { c with vendor := v }

/-- Method `add_tag_single`: append one key/value tag. -/
def addTagSingle (c : CommentHeader) (k v : String) : CommentHeader :=
  { c with tags := c.tags ++ [(k, v)] }

/-- Lines 255-265: vendor `"Ogg"`, one `title` tag, one `album` tag, then
one `artist` tag per artist in list order. -/
def buildComments (t : TrackRecord) : CommentHeader :=
  let c := setVendor newHeader "Ogg"
  let c := addTagSingle c "title" t.name
  let c := addTagSingle c "album" t.albumName
  t.artists.foldl (fun c a => addTagSingle c "artist" a) c

/-- The result of processing a track whose output path is fresh: the
outcome, the performed actions, the bytes handed to `copy` on success, and
whether `File::create` created the output file (it does even when the
subsequent `copy` fails). -/
structure FreshResult where
  outcome : Outcome
  actions : List Action
  writtenBytes : Option (List Nat)
  createdFile : Bool
  deriving DecidableEq, Repr

/-- Lines 172-283, after the already-exists check failed: separator check
(fatal on failure), `create_dir_all` (fatal on failure), key request,
stream open, read, decrypt (each skipping on failure), preamble strip
(`&buf[0xa7..]`, a panic when the buffer is shorter), comment-header
rebuild and splice, `File::create(..).unwrap()` (a panic on failure), and
the final `copy` (skipping on failure). -/
def processFresh (splice : List Nat → CommentHeader → List Nat)
    (env : TrackEnv) (track : TrackRecord) : FreshResult :=
  match env.keyResult with
  | .error e => ⟨.skipped ("cannot get audio key: " ++ e),
      [.createDirs, .requestKey], none, false⟩
  | .ok _ =>
    match env.openResult with
    | .error e => ⟨.skipped ("cannot get audio file: " ++ e),
        [.createDirs, .requestKey, .openAudioFile], none, false⟩
    | .ok _ =>
      match env.readResult with
      | .error e => ⟨.skipped ("cannot get track file audio: " ++ e),
          [.createDirs, .requestKey, .openAudioFile, .readStream], none,
          false⟩
      | .ok _ =>
        match env.decryptResult with
        | .error e => ⟨.skipped ("cannot decrypt audio file: " ++ e),
            [.createDirs, .requestKey, .openAudioFile, .readStream,
              .decryptAudio], none, false⟩
        | .ok decrypted =>
          if decrypted.length < 0xa7 then
            ⟨.panicked "slice index starts at 167 but buffer is shorter",
              [.createDirs, .requestKey, .openAudioFile, .readStream,
                .decryptAudio], none, false⟩
          else
            let outBytes := splice (decrypted.drop 0xa7)
              (buildComments track)
            if env.createOk = false then
              ⟨.panicked "File::create returned Err and was unwrapped",
                [.createDirs, .requestKey, .openAudioFile, .readStream,
                  .decryptAudio, .createOutFile], none, false⟩
            else
              match env.writeResult with
              | .ok _ => ⟨.written,
                  [.createDirs, .requestKey, .openAudioFile, .readStream,
                    .decryptAudio, .createOutFile, .writeOutFile],
                  some outBytes, true⟩
              | .error e => ⟨.skipped ("cannot write: " ++ e),
                  [.createDirs, .requestKey, .openAudioFile, .readStream,
                    .decryptAudio, .createOutFile, .writeOutFile], none,
                  true⟩

/-- The result of one iteration of the track loop. -/
structure StepOutput where
  outcome : Outcome
  fs : List (List Char)
  actions : List Action
  writtenBytes : Option (List Nat)
  deriving DecidableEq, Repr

/-- One iteration of the track loop (lines 125-286): resolve the track
(skip on failure), compute the output path (panic on empty artist list),
stop with `alreadyExists` when the path exists, check the separator (fatal
when missing), then run the fresh-path pipeline. -/
def processTrack (splice : List Nat → CommentHeader → List Nat)
    (template : List Char) (fs : List (List Char)) (env : TrackEnv) :
    StepOutput :=
  match env.resolved with
  | .error e => ⟨.skipped ("cannot get track from id: " ++ e), fs, [], none⟩
  | .ok (track, _) =>
    match computeOutputPath template track with
    | none => ⟨.panicked "artists.first() returned None and was unwrapped",
        fs, [], none⟩
    | some path =>
      if path ∈ fs then ⟨.alreadyExists, fs, [], none⟩
      else if hasSlash path = false then
        ⟨.fatalExit "invalid format string", fs, [], none⟩
      else if env.dirOk = false then
        ⟨.fatalExit "cannot create folders", fs, [.createDirs], none⟩
      else
        let r := processFresh splice env track
        ⟨r.outcome, if r.createdFile then path :: fs else fs, r.actions,
          r.writtenBytes⟩

/-- The track loop: process the resolved ids in iteration order, threading
the filesystem; a fatal outcome (`exit(1)` or a panic) ends the run with
the remaining ids unprocessed. -/
def runTracks (splice : List Nat → CommentHeader → List Nat)
    (template : List Char) (envOf : Nat → TrackEnv) :
    List Nat → List (List Char) → List (Nat × Outcome) × List (List Char)
  | [], fs => ([], fs)
  | id :: rest, fs =>
    let r := processTrack splice template fs (envOf id)
    if r.outcome.isFatal then ([(id, r.outcome)], r.fs)
    else
      let next := runTracks splice template envOf rest r.fs
      ((id, r.outcome) :: next.1, next.2)

theorem buildComments_artists_foldl (l : List String) :
    ∀ c : CommentHeader,
      l.foldl (fun c a => addTagSingle c "artist" a) c =
        ⟨c.vendor, c.tags ++ l.map (fun a => ("artist", a))⟩ := by
  induction l with
  | nil => intro c; simp
  | cons a rest ih =>
    intro c
    rw [List.foldl_cons, ih]
    simp [addTagSingle, List.append_assoc]

/-- The header built by lines 255-265 is vendor `"Ogg"` with exactly one
`title` tag, one `album` tag, and one `artist` tag per artist, in order. -/
theorem buildComments_eq (t : TrackRecord) :
    buildComments t =
      ⟨"Ogg", ("title", t.name) :: ("album", t.albumName) ::
        t.artists.map (fun a => ("artist", a))⟩ := by
  unfold buildComments
  rw [buildComments_artists_foldl]
  rfl

/-! Branch equations for `processTrack` and `processFresh`. -/

theorem processTrack_eq_err (splice : List Nat → CommentHeader → List Nat)
    (template : List Char) (fs : List (List Char)) (env : TrackEnv)
    (e : String) (hres : env.resolved = .error e) :
    processTrack splice template fs env =
      ⟨.skipped ("cannot get track from id: " ++ e), fs, [], none⟩ := by
  unfold processTrack
  simp only [hres]

theorem processTrack_eq_panic (splice : List Nat → CommentHeader → List Nat)
    (template : List Char) (fs : List (List Char)) (env : TrackEnv)
    (t : TrackRecord) (f : String) (hres : env.resolved = .ok (t, f))
    (hp : computeOutputPath template t = none) :
    processTrack splice template fs env =
      ⟨.panicked "artists.first() returned None and was unwrapped", fs, [],
        none⟩ := by
  unfold processTrack
  simp only [hres, hp]

theorem processTrack_eq_ok (splice : List Nat → CommentHeader → List Nat)
    (template : List Char) (fs : List (List Char)) (env : TrackEnv)
    (t : TrackRecord) (f : String) (path : List Char)
    (hres : env.resolved = .ok (t, f))
    (hp : computeOutputPath template t = some path) :
    processTrack splice template fs env =
      if path ∈ fs then ⟨.alreadyExists, fs, [], none⟩
      else if hasSlash path = false then
        ⟨.fatalExit "invalid format string", fs, [], none⟩
      else if env.dirOk = false then
        ⟨.fatalExit "cannot create folders", fs, [.createDirs], none⟩
      else ⟨(processFresh splice env t).outcome,
        if (processFresh splice env t).createdFile then path :: fs else fs,
        (processFresh splice env t).actions,
        (processFresh splice env t).writtenBytes⟩ := by
  unfold processTrack
  simp only [hres, hp]

theorem processFresh_eq_key_err
    (splice : List Nat → CommentHeader → List Nat) (env : TrackEnv)
    (t : TrackRecord) (e : String) (hk : env.keyResult = .error e) :
    processFresh splice env t =
      ⟨.skipped ("cannot get audio key: " ++ e),
        [.createDirs, .requestKey], none, false⟩ := by
  unfold processFresh
  simp only [hk]

theorem processFresh_eq_open_err
    (splice : List Nat → CommentHeader → List Nat) (env : TrackEnv)
    (t : TrackRecord) (e : String) (hk : env.keyResult = .ok ())
    (ho : env.openResult = .error e) :
    processFresh splice env t =
      ⟨.skipped ("cannot get audio file: " ++ e),
        [.createDirs, .requestKey, .openAudioFile], none, false⟩ := by
  unfold processFresh
  simp only [hk, ho]

theorem processFresh_eq_read_err
    (splice : List Nat → CommentHeader → List Nat) (env : TrackEnv)
    (t : TrackRecord) (e : String) (hk : env.keyResult = .ok ())
    (ho : env.openResult = .ok ()) (hr : env.readResult = .error e) :
    processFresh splice env t =
      ⟨.skipped ("cannot get track file audio: " ++ e),
        [.createDirs, .requestKey, .openAudioFile, .readStream], none,
        false⟩ := by
  unfold processFresh
  simp only [hk, ho, hr]

theorem processFresh_eq_dec_err
    (splice : List Nat → CommentHeader → List Nat) (env : TrackEnv)
    (t : TrackRecord) (e : String) (buf : List Nat)
    (hk : env.keyResult = .ok ()) (ho : env.openResult = .ok ())
    (hr : env.readResult = .ok buf) (hd : env.decryptResult = .error e) :
    processFresh splice env t =
      ⟨.skipped ("cannot decrypt audio file: " ++ e),
        [.createDirs, .requestKey, .openAudioFile, .readStream,
          .decryptAudio], none, false⟩ := by
  unfold processFresh
  simp only [hk, ho, hr, hd]

theorem processFresh_eq_short
    (splice : List Nat → CommentHeader → List Nat) (env : TrackEnv)
    (t : TrackRecord) (buf d : List Nat) (hk : env.keyResult = .ok ())
    (ho : env.openResult = .ok ()) (hr : env.readResult = .ok buf)
    (hd : env.decryptResult = .ok d) (hl : d.length < 0xa7) :
    processFresh splice env t =
      ⟨.panicked "slice index starts at 167 but buffer is shorter",
        [.createDirs, .requestKey, .openAudioFile, .readStream,
          .decryptAudio], none, false⟩ := by
  unfold processFresh
  simp only [hk, ho, hr, hd, if_pos hl]

theorem processFresh_eq_create_fail
    (splice : List Nat → CommentHeader → List Nat) (env : TrackEnv)
    (t : TrackRecord) (buf d : List Nat) (hk : env.keyResult = .ok ())
    (ho : env.openResult = .ok ()) (hr : env.readResult = .ok buf)
    (hd : env.decryptResult = .ok d) (hl : ¬ d.length < 0xa7)
    (hc : env.createOk = false) :
    processFresh splice env t =
      ⟨.panicked "File::create returned Err and was unwrapped",
        [.createDirs, .requestKey, .openAudioFile, .readStream,
          .decryptAudio, .createOutFile], none, false⟩ := by
  unfold processFresh
  simp only [hk, ho, hr, hd, if_neg hl, if_pos hc]

theorem processFresh_eq_write_ok
    (splice : List Nat → CommentHeader → List Nat) (env : TrackEnv)
    (t : TrackRecord) (buf d : List Nat) (hk : env.keyResult = .ok ())
    (ho : env.openResult = .ok ()) (hr : env.readResult = .ok buf)
    (hd : env.decryptResult = .ok d) (hl : ¬ d.length < 0xa7)
    (hc : env.createOk = true) (hw : env.writeResult = .ok ()) :
    processFresh splice env t =
      ⟨.written,
        [.createDirs, .requestKey, .openAudioFile, .readStream,
          .decryptAudio, .createOutFile, .writeOutFile],
        some (splice (d.drop 0xa7) (buildComments t)), true⟩ := by
  unfold processFresh
  simp only [hk, ho, hr, hd, if_neg hl, hc, hw]
  simp

theorem processFresh_eq_write_err
    (splice : List Nat → CommentHeader → List Nat) (env : TrackEnv)
    (t : TrackRecord) (buf d : List Nat) (e : String)
    (hk : env.keyResult = .ok ()) (ho : env.openResult = .ok ())
    (hr : env.readResult = .ok buf) (hd : env.decryptResult = .ok d)
    (hl : ¬ d.length < 0xa7) (hc : env.createOk = true)
    (hw : env.writeResult = .error e) :
    processFresh splice env t =
      ⟨.skipped ("cannot write: " ++ e),
        [.createDirs, .requestKey, .openAudioFile, .readStream,
          .decryptAudio, .createOutFile, .writeOutFile], none, true⟩ := by
  unfold processFresh
  simp only [hk, ho, hr, hd, if_neg hl, hc, hw]
  simp

theorem processFresh_created_of_written
    (splice : List Nat → CommentHeader → List Nat) (env : TrackEnv)
    (t : TrackRecord)
    (h : (processFresh splice env t).outcome = .written) :
    (processFresh splice env t).createdFile = true := by
  cases hk : env.keyResult with
  | error e => rw [processFresh_eq_key_err splice env t e hk] at h; simp at h
  | ok u =>
    cases u
    cases ho : env.openResult with
    | error e =>
      rw [processFresh_eq_open_err splice env t e hk ho] at h; simp at h
    | ok u2 =>
      cases u2
      cases hr : env.readResult with
      | error e =>
        rw [processFresh_eq_read_err splice env t e hk ho hr] at h
        simp at h
      | ok buf =>
        cases hd : env.decryptResult with
        | error e =>
          rw [processFresh_eq_dec_err splice env t e buf hk ho hr hd] at h
          simp at h
        | ok d =>
          by_cases hl : d.length < 0xa7
          · rw [processFresh_eq_short splice env t buf d hk ho hr hd hl]
              at h
            simp at h
          · cases hcb : env.createOk with
            | false =>
              rw [processFresh_eq_create_fail splice env t buf d hk ho hr
                hd hl hcb] at h
              simp at h
            | true =>
              cases hw : env.writeResult with
              | error e =>
                rw [processFresh_eq_write_err splice env t buf d e hk ho hr
                  hd hl hcb hw]
              | ok u3 =>
                cases u3
                rw [processFresh_eq_write_ok splice env t buf d hk ho hr hd
                  hl hcb hw]

theorem processTrack_written (splice : List Nat → CommentHeader → List Nat)
    (template : List Char) (fs : List (List Char)) (env : TrackEnv)
    (h : (processTrack splice template fs env).outcome = .written) :
    ∃ t f path, env.resolved = .ok (t, f) ∧
      computeOutputPath template t = some path ∧ path ∉ fs ∧
      (processTrack splice template fs env).fs = path :: fs := by
  cases hres : env.resolved with
  | error e =>
    rw [processTrack_eq_err splice template fs env e hres] at h
    simp at h
  | ok tf =>
    obtain ⟨t, f⟩ := tf
    cases hp : computeOutputPath template t with
    | none =>
      rw [processTrack_eq_panic splice template fs env t f hres hp] at h
      simp at h
    | some path =>
      rw [processTrack_eq_ok splice template fs env t f path hres hp] at h ⊢
      by_cases hm : path ∈ fs
      · rw [if_pos hm] at h; simp at h
      · rw [if_neg hm] at h ⊢
        by_cases hs : hasSlash path = false
        · rw [if_pos hs] at h; simp at h
        · rw [if_neg hs] at h ⊢
          by_cases hd : env.dirOk = false
          · rw [if_pos hd] at h; simp at h
          · rw [if_neg hd] at h ⊢
            have hc := processFresh_created_of_written splice env t h
            exact ⟨t, f, path, rfl, hp, hm, by simp [hc]⟩

theorem processTrack_nonfatal_mono
    (splice : List Nat → CommentHeader → List Nat) (template : List Char)
    (fs fs' : List (List Char)) (env : TrackEnv)
    (hsub : ∀ p ∈ fs, p ∈ fs')
    (h : (processTrack splice template fs env).outcome.isFatal = false) :
    (processTrack splice template fs' env).outcome.isFatal = false := by
  cases hres : env.resolved with
  | error e =>
    rw [processTrack_eq_err splice template fs' env e hres]
    rfl
  | ok tf =>
    obtain ⟨t, f⟩ := tf
    cases hp : computeOutputPath template t with
    | none =>
      rw [processTrack_eq_panic splice template fs env t f hres hp] at h
      simp [Outcome.isFatal] at h
    | some path =>
      rw [processTrack_eq_ok splice template fs env t f path hres hp] at h
      rw [processTrack_eq_ok splice template fs' env t f path hres hp]
      by_cases hm' : path ∈ fs'
      · rw [if_pos hm']; rfl
      · have hm : path ∉ fs := fun hx => hm' (hsub path hx)
        rw [if_neg hm] at h
        rw [if_neg hm']
        by_cases hs : hasSlash path = false
        · rw [if_pos hs] at h; simp [Outcome.isFatal] at h
        · rw [if_neg hs] at h; rw [if_neg hs]
          by_cases hd : env.dirOk = false
          · rw [if_pos hd] at h; simp [Outcome.isFatal] at h
          · rw [if_neg hd] at h; rw [if_neg hd]
            exact h

theorem mem_processTrack_fs (splice : List Nat → CommentHeader → List Nat)
    (template : List Char) (fs : List (List Char)) (env : TrackEnv)
    (p : List Char) (hp : p ∈ fs) :
    p ∈ (processTrack splice template fs env).fs := by
  cases hres : env.resolved with
  | error e => rw [processTrack_eq_err splice template fs env e hres]; exact hp
  | ok tf =>
    obtain ⟨t, f⟩ := tf
    cases hpath : computeOutputPath template t with
    | none =>
      rw [processTrack_eq_panic splice template fs env t f hres hpath]
      exact hp
    | some path =>
      rw [processTrack_eq_ok splice template fs env t f path hres hpath]
      by_cases hm : path ∈ fs
      · rw [if_pos hm]; exact hp
      · rw [if_neg hm]
        by_cases hs : hasSlash path = false
        · rw [if_pos hs]; exact hp
        · rw [if_neg hs]
          by_cases hd : env.dirOk = false
          · rw [if_pos hd]; exact hp
          · rw [if_neg hd]
            show p ∈ (if (processFresh splice env t).createdFile then
              path :: fs else fs)
            by_cases hc : (processFresh splice env t).createdFile
            · rw [if_pos hc]; exact List.mem_cons_of_mem _ hp
            · rw [if_neg hc]; exact hp

theorem runTracks_cons_fatal (splice : List Nat → CommentHeader → List Nat)
    (template : List Char) (envOf : Nat → TrackEnv) (id : Nat)
    (rest : List Nat) (fs : List (List Char))
    (h : (processTrack splice template fs (envOf id)).outcome.isFatal =
      true) :
    runTracks splice template envOf (id :: rest) fs =
      ([(id, (processTrack splice template fs (envOf id)).outcome)],
        (processTrack splice template fs (envOf id)).fs) := by
  simp only [runTracks, h, if_true]

theorem runTracks_cons_nonfatal
    (splice : List Nat → CommentHeader → List Nat) (template : List Char)
    (envOf : Nat → TrackEnv) (id : Nat) (rest : List Nat)
    (fs : List (List Char))
    (h : (processTrack splice template fs (envOf id)).outcome.isFatal =
      false) :
    runTracks splice template envOf (id :: rest) fs =
      ((id, (processTrack splice template fs (envOf id)).outcome) ::
        (runTracks splice template envOf rest
          (processTrack splice template fs (envOf id)).fs).1,
       (runTracks splice template envOf rest
          (processTrack splice template fs (envOf id)).fs).2) := by
  simp only [runTracks, h, if_false, Bool.false_eq_true]

theorem mem_runTracks_fs (splice : List Nat → CommentHeader → List Nat)
    (template : List Char) (envOf : Nat → TrackEnv) (ids : List Nat) :
    ∀ fs p, p ∈ fs → p ∈ (runTracks splice template envOf ids fs).2 := by
  induction ids with
  | nil => intro fs p hp; exact hp
  | cons id rest ih =>
    intro fs p hp
    have hp2 := mem_processTrack_fs splice template fs (envOf id) p hp
    by_cases hf :
        (processTrack splice template fs (envOf id)).outcome.isFatal = true
    · rw [runTracks_cons_fatal splice template envOf id rest fs hf]
      exact hp2
    · rw [runTracks_cons_nonfatal splice template envOf id rest fs
        (Bool.eq_false_iff.2 hf)]
      exact ih _ p hp2

theorem runTracks_written_path
    (splice : List Nat → CommentHeader → List Nat) (template : List Char)
    (envOf : Nat → TrackEnv) (ids : List Nat) :
    ∀ fs id,
      (id, Outcome.written) ∈ (runTracks splice template envOf ids fs).1 →
      ∃ t f path, (envOf id).resolved = .ok (t, f) ∧
        computeOutputPath template t = some path ∧
        path ∈ (runTracks splice template envOf ids fs).2 := by
  induction ids with
  | nil => intro fs id h; simp [runTracks] at h
  | cons id2 rest ih =>
    intro fs id h
    by_cases hf :
        (processTrack splice template fs (envOf id2)).outcome.isFatal = true
    · rw [runTracks_cons_fatal splice template envOf id2 rest fs hf] at h
      simp only [List.mem_singleton, Prod.mk.injEq] at h
      rw [← h.2] at hf
      simp [Outcome.isFatal] at hf
    · have hf1 := Bool.eq_false_iff.2 hf
      rw [runTracks_cons_nonfatal splice template envOf id2 rest fs hf1]
        at h
      rcases List.mem_cons.1 h with heq | hmem
      · rw [Prod.mk.injEq] at heq
        obtain ⟨rfl, ho⟩ := heq
        obtain ⟨t, f, path, hres, hp, hnm, hfs⟩ :=
          processTrack_written splice template fs (envOf id) ho.symm
        refine ⟨t, f, path, hres, hp, ?_⟩
        rw [runTracks_cons_nonfatal splice template envOf id rest fs hf1]
        exact mem_runTracks_fs splice template envOf rest _ path
          (by rw [hfs]; exact List.mem_cons_self _ _)
      · obtain ⟨t, f, path, hres, hp, hpath⟩ := ih _ id hmem
        refine ⟨t, f, path, hres, hp, ?_⟩
        rw [runTracks_cons_nonfatal splice template envOf id2 rest fs hf1]
        exact hpath

theorem runTracks_rerun (splice : List Nat → CommentHeader → List Nat)
    (template : List Char) (envOf : Nat → TrackEnv) (ids : List Nat) :
    ∀ fs1 fs2 id,
      (∀ pr ∈ (runTracks splice template envOf ids fs1).1,
        pr.2.isFatal = false) →
      (∀ p ∈ (runTracks splice template envOf ids fs1).2, p ∈ fs2) →
      (id, Outcome.written) ∈ (runTracks splice template envOf ids fs1).1 →
      (id, Outcome.alreadyExists) ∈
        (runTracks splice template envOf ids fs2).1 := by
  induction ids with
  | nil => intro fs1 fs2 id _ _ hw; simp [runTracks] at hw
  | cons id2 rest ih =>
    intro fs1 fs2 id hnf hsub hw
    by_cases hf :
        (processTrack splice template fs1 (envOf id2)).outcome.isFatal =
          true
    · exfalso
      have hmem : (id2,
          (processTrack splice template fs1 (envOf id2)).outcome) ∈
          (runTracks splice template envOf (id2 :: rest) fs1).1 := by
        rw [runTracks_cons_fatal splice template envOf id2 rest fs1 hf]
        exact List.mem_cons_self _ _
      have hcontra := hnf _ hmem
      rw [hcontra] at hf
      exact Bool.false_ne_true hf
    · have hf1 := Bool.eq_false_iff.2 hf
      rw [runTracks_cons_nonfatal splice template envOf id2 rest fs1 hf1]
        at hw
      have hsub10 : ∀ p ∈ fs1, p ∈ fs2 := fun p hp =>
        hsub p (mem_runTracks_fs splice template envOf (id2 :: rest) fs1 p
          hp)
      have hr2nf :
          (processTrack splice template fs2 (envOf id2)).outcome.isFatal =
            false :=
        processTrack_nonfatal_mono splice template fs1 fs2 (envOf id2)
          hsub10 hf1
      rw [runTracks_cons_nonfatal splice template envOf id2 rest fs2 hr2nf]
      rcases List.mem_cons.1 hw with heq | hmem
      · rw [Prod.mk.injEq] at heq
        obtain ⟨rfl, ho⟩ := heq
        obtain ⟨t, f, path, hres, hp, hnm, hfs⟩ :=
          processTrack_written splice template fs1 (envOf id) ho.symm
        have hpathfs2 : path ∈ fs2 := by
          apply hsub
          rw [runTracks_cons_nonfatal splice template envOf id rest fs1
            hf1]
          exact mem_runTracks_fs splice template envOf rest _ path
            (by rw [hfs]; exact List.mem_cons_self _ _)
        have hAE : processTrack splice template fs2 (envOf id) =
            ⟨.alreadyExists, fs2, [], none⟩ := by
          rw [processTrack_eq_ok splice template fs2 (envOf id) t f path
            hres hp, if_pos hpathfs2]
        exact List.mem_cons.2 (Or.inl (by rw [hAE]))
      · refine List.mem_cons.2 (Or.inr (ih _ _ id ?_ ?_ hmem))
        · intro pr hpr
          apply hnf
          rw [runTracks_cons_nonfatal splice template envOf id2 rest fs1
            hf1]
          exact List.mem_cons.2 (Or.inr hpr)
        · intro p hp
          apply mem_processTrack_fs
          apply hsub
          rw [runTracks_cons_nonfatal splice template envOf id2 rest fs1
            hf1]
          exact hp

/-! Concrete pipeline data for the witnesses and counterexamples. -/

/-- A resolvable track with two artists. -/
def pipeTrack : TrackRecord :=
  { id := 7, name := "Song", albumName := "Alb", artists := ["X", "Y"],
    files := [(.OGG_VORBIS_320, "fh")], alternatives := [] }

/-- An environment in which every external interaction succeeds; the
decrypted buffer is 200 bytes long. -/
def okEnv : TrackEnv :=
  { resolved := .ok (pipeTrack, "fh"), keyResult := .ok (),
    openResult := .ok (), readResult := .ok [1, 2, 3],
    decryptResult := .ok (List.range 200), dirOk := true, createOk := true,
    writeResult := .ok () }

/-- A comment-header rewriter for the witnesses: return the container. -/
def idSplice : List Nat → CommentHeader → List Nat := fun c _ => c

/-- The default output template `{author}/{album}/{name}.{ext}`. -/
def defaultTemplate : List Char := "{author}/{album}/{name}.{ext}".data

/-- A record with an empty artist list. -/
def noArtistTrack : TrackRecord :=
  { id := 8, name := "N", albumName := "A", artists := [], files := [],
    alternatives := [] }

/-- Like `okEnv`, but resolving to the artistless record. -/
def noArtistEnv : TrackEnv :=
  { okEnv with resolved := .ok (noArtistTrack, "fh") }

/-- Like `okEnv`, but `File::create` fails. -/
def createFailEnv : TrackEnv :=
  { okEnv with createOk := false }

/-- C10: when the resolved record's artist list is empty, output-path
computation unwraps `None` and panics; the track is not skipped and no
other defined outcome is produced. -/
theorem empty_artists_panic (splice : List Nat → CommentHeader → List Nat)
    (template : List Char) (fs : List (List Char)) (env : TrackEnv)
    (t : TrackRecord) (f : String) (hres : env.resolved = .ok (t, f))
    (hart : t.artists = []) :
    processTrack splice template fs env =
      ⟨.panicked "artists.first() returned None and was unwrapped", fs, [],
        none⟩ := by
  apply processTrack_eq_panic splice template fs env t f hres
  unfold computeOutputPath
  rw [hart]
  rfl

/-- C10 witness: processing the artistless record panics. -/
theorem empty_artists_panic_witness :
    processTrack idSplice defaultTemplate [] noArtistEnv =
      ⟨.panicked "artists.first() returned None and was unwrapped", [], [],
        none⟩ :=
  empty_artists_panic idSplice defaultTemplate [] noArtistEnv noArtistTrack
    "fh" rfl rfl

/-- C6: (a) a track whose computed output path already exists yields
`alreadyExists`, performs no action (no re-download) and leaves the
filesystem unchanged (no overwrite); (b) re-running the whole loop on the
filesystem produced by a first fatal-free run turns every `written` track
into `alreadyExists`. -/
theorem already_exists_idempotent
    (splice : List Nat → CommentHeader → List Nat) (template : List Char)
    (envOf : Nat → TrackEnv) :
    (∀ fs env t f path, env.resolved = .ok (t, f) →
      computeOutputPath template t = some path → path ∈ fs →
      processTrack splice template fs env =
        ⟨.alreadyExists, fs, [], none⟩) ∧
    (∀ ids fs1 id,
      (∀ pr ∈ (runTracks splice template envOf ids fs1).1,
        pr.2.isFatal = false) →
      (id, Outcome.written) ∈ (runTracks splice template envOf ids fs1).1 →
      (id, Outcome.alreadyExists) ∈
        (runTracks splice template envOf ids
          (runTracks splice template envOf ids fs1).2).1) := by
  constructor
  · intro fs env t f path hres hp hm
    rw [processTrack_eq_ok splice template fs env t f path hres hp,
      if_pos hm]
  · intro ids fs1 id hnf hw
    exact runTracks_rerun splice template envOf ids fs1 _ id hnf
      (fun p hp => hp) hw

/-- C6 witness: with everything succeeding, track 7 yields
`X/Alb/Song.ogg`; when that path exists the step reports `alreadyExists`
with no actions, and a second run over the first run's filesystem reports
`alreadyExists` for the track written by the first run. -/
theorem already_exists_idempotent_witness :
    processTrack idSplice defaultTemplate ["X/Alb/Song.ogg".data] okEnv =
      ⟨.alreadyExists, ["X/Alb/Song.ogg".data], [], none⟩ ∧
    (7, Outcome.alreadyExists) ∈
      (runTracks idSplice defaultTemplate (fun _ => okEnv) [7]
        (runTracks idSplice defaultTemplate (fun _ => okEnv) [7] []).2).1 := by
  constructor
  · exact (already_exists_idempotent idSplice defaultTemplate
      (fun _ => okEnv)).1 ["X/Alb/Song.ogg".data] okEnv pipeTrack "fh"
      "X/Alb/Song.ogg".data rfl (by decide) (by decide)
  · exact (already_exists_idempotent idSplice defaultTemplate
      (fun _ => okEnv)).2 [7] [] 7 (by decide) (by decide)

/-- C7 (amended): the separator check runs *after* the already-exists
check.  A separator-free substituted path aborts the entire run fatally
(remaining tracks unprocessed) only when the path does not already exist;
when it does exist, the track is reported `alreadyExists` like any other
per-track condition. -/
theorem no_separator_fatal (splice : List Nat → CommentHeader → List Nat)
    (template : List Char) (envOf : Nat → TrackEnv) (fs : List (List Char))
    (id : Nat) (rest : List Nat) (t : TrackRecord) (f : String)
    (path : List Char) (hres : (envOf id).resolved = .ok (t, f))
    (hp : computeOutputPath template t = some path)
    (hs : hasSlash path = false) :
    (path ∉ fs →
      runTracks splice template envOf (id :: rest) fs =
        ([(id, .fatalExit "invalid format string")], fs)) ∧
    (path ∈ fs →
      processTrack splice template fs (envOf id) =
        ⟨.alreadyExists, fs, [], none⟩) := by
  constructor
  · intro hm
    have heq : processTrack splice template fs (envOf id) =
        ⟨.fatalExit "invalid format string", fs, [], none⟩ := by
      rw [processTrack_eq_ok splice template fs (envOf id) t f path hres hp,
        if_neg hm, if_pos hs]
    rw [runTracks_cons_fatal splice template envOf id rest fs
      (by rw [heq]; rfl), heq]
  · intro hm
    rw [processTrack_eq_ok splice template fs (envOf id) t f path hres hp,
      if_pos hm]

/-- C7 counterexample: with the separator-free template `t.ogg` and the
path `t.ogg` already existing, the run does *not* abort: both tracks are
reported `alreadyExists` and processing reaches the end of the id list —
the already-exists check precedes the separator check. -/
theorem no_separator_cex :
    runTracks idSplice "t.ogg".data (fun _ => okEnv) [7, 8]
        ["t.ogg".data] =
      ([(7, Outcome.alreadyExists), (8, Outcome.alreadyExists)],
        ["t.ogg".data]) := by
  decide

/-- C7 witness: a separator-free path that does not yet exist aborts the
run fatally with the remaining ids unprocessed, and the same path, once
present, yields a per-track `alreadyExists`. -/
theorem no_separator_fatal_witness :
    runTracks idSplice "t.ogg".data (fun _ => okEnv) [7, 8] [] =
      ([(7, .fatalExit "invalid format string")], []) ∧
    processTrack idSplice "t.ogg".data ["t.ogg".data] okEnv =
      ⟨.alreadyExists, ["t.ogg".data], [], none⟩ := by
  constructor
  · exact (no_separator_fatal idSplice "t.ogg".data (fun _ => okEnv) [] 7
      [8] pipeTrack "fh" "t.ogg".data rfl (by decide) (by decide)).1
      (by decide)
  · exact (no_separator_fatal idSplice "t.ogg".data (fun _ => okEnv)
      ["t.ogg".data] 7 [8] pipeTrack "fh" "t.ogg".data rfl (by decide)
      (by decide)).2 (by decide)

/-- C4 (amended): after path computation, with a fresh path, a separator
and a created directory, failures of the key request, stream open, read,
decrypt and final write each produce a `skipped` outcome, and a skipped
track lets the loop continue with the remaining ids; a failure of
`File::create`, however, is unwrapped into a panic (it does not become
`skipped` and, being fatal, ends the run). -/
theorem per_track_error_policy
    (splice : List Nat → CommentHeader → List Nat) (template : List Char)
    (envOf : Nat → TrackEnv) (fs : List (List Char)) (id : Nat)
    (rest : List Nat) (t : TrackRecord) (f : String) (path : List Char)
    (hres : (envOf id).resolved = .ok (t, f))
    (hp : computeOutputPath template t = some path) (hm : path ∉ fs)
    (hs : ¬ hasSlash path = false) (hdir : ¬ (envOf id).dirOk = false) :
    (∀ e, (envOf id).keyResult = .error e →
      (processTrack splice template fs (envOf id)).outcome =
        .skipped ("cannot get audio key: " ++ e)) ∧
    (∀ e, (envOf id).keyResult = .ok () →
      (envOf id).openResult = .error e →
      (processTrack splice template fs (envOf id)).outcome =
        .skipped ("cannot get audio file: " ++ e)) ∧
    (∀ e, (envOf id).keyResult = .ok () → (envOf id).openResult = .ok () →
      (envOf id).readResult = .error e →
      (processTrack splice template fs (envOf id)).outcome =
        .skipped ("cannot get track file audio: " ++ e)) ∧
    (∀ e buf, (envOf id).keyResult = .ok () →
      (envOf id).openResult = .ok () → (envOf id).readResult = .ok buf →
      (envOf id).decryptResult = .error e →
      (processTrack splice template fs (envOf id)).outcome =
        .skipped ("cannot decrypt audio file: " ++ e)) ∧
    (∀ e buf d, (envOf id).keyResult = .ok () →
      (envOf id).openResult = .ok () → (envOf id).readResult = .ok buf →
      (envOf id).decryptResult = .ok d → ¬ d.length < 0xa7 →
      (envOf id).createOk = true → (envOf id).writeResult = .error e →
      (processTrack splice template fs (envOf id)).outcome =
        .skipped ("cannot write: " ++ e)) ∧
    (∀ buf d, (envOf id).keyResult = .ok () →
      (envOf id).openResult = .ok () → (envOf id).readResult = .ok buf →
      (envOf id).decryptResult = .ok d → ¬ d.length < 0xa7 →
      (envOf id).createOk = false →
      (processTrack splice template fs (envOf id)).outcome =
        .panicked "File::create returned Err and was unwrapped") ∧
    (∀ r, (processTrack splice template fs (envOf id)).outcome =
        .skipped r →
      runTracks splice template envOf (id :: rest) fs =
        ((id, .skipped r) ::
          (runTracks splice template envOf rest
            (processTrack splice template fs (envOf id)).fs).1,
         (runTracks splice template envOf rest
            (processTrack splice template fs (envOf id)).fs).2)) := by
  have hbase := processTrack_eq_ok splice template fs (envOf id) t f path
    hres hp
  rw [if_neg hm, if_neg hs, if_neg hdir] at hbase
  refine ⟨fun e hk => ?_, fun e hk ho => ?_, fun e hk ho hr => ?_,
    fun e buf hk ho hr hd => ?_, fun e buf d hk ho hr hd hl hc hw => ?_,
    fun buf d hk ho hr hd hl hc => ?_, fun r hr => ?_⟩
  · rw [hbase, processFresh_eq_key_err splice (envOf id) t e hk]
  · rw [hbase, processFresh_eq_open_err splice (envOf id) t e hk ho]
  · rw [hbase, processFresh_eq_read_err splice (envOf id) t e hk ho hr]
  · rw [hbase, processFresh_eq_dec_err splice (envOf id) t e buf hk ho hr
      hd]
  · rw [hbase, processFresh_eq_write_err splice (envOf id) t buf d e hk ho
      hr hd hl hc hw]
  · rw [hbase, processFresh_eq_create_fail splice (envOf id) t buf d hk ho
      hr hd hl hc]
  · rw [runTracks_cons_nonfatal splice template envOf id rest fs
      (by rw [hr]; rfl), hr]

/-- Like `okEnv`, but the audio-key request fails. -/
def keyFailEnv : TrackEnv :=
  { okEnv with keyResult := .error "k" }

/-- Like `okEnv`, but the final `copy` fails. -/
def writeFailEnv : TrackEnv :=
  { okEnv with writeResult := .error "w" }

/-- C4 witness: a failing key request and a failing write are both
reported `skipped`, and after a skipped track the loop continues with the
next id (here: the second id is still processed and written). -/
theorem per_track_error_policy_witness :
    (processTrack idSplice defaultTemplate [] keyFailEnv).outcome =
      .skipped ("cannot get audio key: " ++ "k") ∧
    (processTrack idSplice defaultTemplate [] writeFailEnv).outcome =
      .skipped ("cannot write: " ++ "w") ∧
    runTracks idSplice defaultTemplate (fun _ => keyFailEnv) [0, 1] [] =
      ((0, .skipped ("cannot get audio key: " ++ "k")) ::
        (runTracks idSplice defaultTemplate (fun _ => keyFailEnv) [1]
          (processTrack idSplice defaultTemplate []
            keyFailEnv).fs).1,
       (runTracks idSplice defaultTemplate (fun _ => keyFailEnv) [1]
          (processTrack idSplice defaultTemplate []
            keyFailEnv).fs).2) := by
  refine ⟨?_, ?_, ?_⟩
  · exact (per_track_error_policy idSplice defaultTemplate
      (fun _ => keyFailEnv) [] 0 [] pipeTrack "fh" "X/Alb/Song.ogg".data
      rfl (by decide) (by decide) (by decide) (by decide)).1 "k" rfl
  · exact (per_track_error_policy idSplice defaultTemplate
      (fun _ => writeFailEnv) [] 0 [] pipeTrack "fh" "X/Alb/Song.ogg".data
      rfl (by decide) (by decide) (by decide) (by decide)).2.2.2.2.1 "w"
      [1, 2, 3] (List.range 200) rfl rfl rfl rfl (by decide) rfl rfl
  · exact (per_track_error_policy idSplice defaultTemplate
      (fun _ => keyFailEnv) [] 0 [1] pipeTrack "fh" "X/Alb/Song.ogg".data
      rfl (by decide) (by decide) (by decide)
      (by decide)).2.2.2.2.2.2 ("cannot get audio key: " ++ "k")
      (by decide)

/-- C4 counterexample: when `File::create` fails (all earlier steps
succeeding), the outcome is a panic — a fatal, run-terminating unwrap —
not the `skipped` outcome the claim asserts for output-file creation
failures. -/
theorem create_failure_not_skipped_cex :
    (processTrack idSplice defaultTemplate [] createFailEnv).outcome =
      .panicked "File::create returned Err and was unwrapped" ∧
    (processTrack idSplice defaultTemplate []
      createFailEnv).outcome.isFatal = true := by
  decide

/-- C3: on a successful download with a decrypted buffer longer than 167
bytes, the container handed to the comment-header rewriter is exactly the
decrypted buffer with its first 167 (0xA7) bytes removed, the fresh header
has vendor `"Ogg"` and exactly one `title` tag (record name), one `album`
tag (album name) and one `artist` tag per artist in list order, and the
bytes written are the rewriter's output on that container and header; byte
`i` of the container is byte `167 + i` of the decrypted buffer, so no
preamble byte reaches the output. -/
theorem preamble_strip_and_header
    (splice : List Nat → CommentHeader → List Nat) (template : List Char)
    (fs : List (List Char)) (env : TrackEnv) (t : TrackRecord) (f : String)
    (path : List Char) (buf d : List Nat)
    (hres : env.resolved = .ok (t, f))
    (hp : computeOutputPath template t = some path) (hm : path ∉ fs)
    (hs : ¬ hasSlash path = false) (hdir : ¬ env.dirOk = false)
    (hk : env.keyResult = .ok ()) (ho : env.openResult = .ok ())
    (hr : env.readResult = .ok buf) (hd : env.decryptResult = .ok d)
    (hlen : 167 < d.length) (hc : env.createOk = true)
    (hw : env.writeResult = .ok ()) :
    processTrack splice template fs env =
      ⟨.written, path :: fs,
        [.createDirs, .requestKey, .openAudioFile, .readStream,
          .decryptAudio, .createOutFile, .writeOutFile],
        some (splice (d.drop 167)
          ⟨"Ogg", ("title", t.name) :: ("album", t.albumName) ::
            t.artists.map (fun a => ("artist", a))⟩)⟩ ∧
    (∀ i, (d.drop 167)[i]? = d[167 + i]?) := by
  constructor
  · have hbase := processTrack_eq_ok splice template fs env t f path hres
      hp
    rw [if_neg hm, if_neg hs, if_neg hdir,
      processFresh_eq_write_ok splice env t buf d hk ho hr hd (by omega)
        hc hw] at hbase
    rw [hbase, buildComments_eq]
    rfl
  · intro i
    exact List.getElem?_drop d 167 i

/-- C3 witness: with a 200-byte decrypted buffer `[0, …, 199]`, the track
is written, the container passed to the rewriter is bytes 167-199, the
header carries exactly the title, album and two artist tags, and container
byte 0 is decrypted byte 167. -/
theorem preamble_strip_and_header_witness :
    processTrack idSplice defaultTemplate [] okEnv =
      ⟨.written, ["X/Alb/Song.ogg".data],
        [.createDirs, .requestKey, .openAudioFile, .readStream,
          .decryptAudio, .createOutFile, .writeOutFile],
        some (idSplice ((List.range 200).drop 167)
          ⟨"Ogg", ("title", pipeTrack.name) ::
            ("album", pipeTrack.albumName) ::
            pipeTrack.artists.map (fun a => ("artist", a))⟩)⟩ ∧
    (∀ i, ((List.range 200).drop 167)[i]? = (List.range 200)[167 + i]?) :=
  preamble_strip_and_header idSplice defaultTemplate [] okEnv pipeTrack
    "fh" "X/Alb/Song.ogg".data [1, 2, 3] (List.range 200) rfl (by decide)
    (by decide) (by decide) (by decide) rfl rfl rfl rfl (by decide) rfl
    rfl

end Rippify
